import Mathlib

/-
Shallow embedding of the fraction-ai-bot repository:
  src/access_token.py  (class FractionAIAuth: fetch_nonce, verify_dapp_auth)
  src/bot.py           (class GameSession: _generate_headers, refresh_token,
                        initiate_match, run; function main)
Network responses, parsed JSON bodies and the durable token file are modelled
explicitly; every branch of the Python code is mirrored, including its sleeps
(recorded as a list of durations in seconds), its refresh_token invocations
(recorded as a count) and the exceptions it does or does not catch.
Parsed JSON bodies are modelled at the granularity the code observes them:
a flat object of string fields (matching the documented response shapes),
or a parse failure.
-/

set_option autoImplicit false

/-- Python list-of-characters test: does the first list start the second? -/
def startsWithL : List Char → List Char → Bool
  | [], _ => true
  | _ :: _, [] => false
  | a :: as, b :: bs => a == b && startsWithL as bs

/-- Substring occurrence on character lists, used to model the Python
membership test on strings, for example the check of "Not found" in the
error field of a response body. -/
def containsL : List Char → List Char → Bool
  | needle, [] => startsWithL needle []
  | needle, c :: rest => startsWithL needle (c :: rest) || containsL needle rest

/-- The Python expression needle in haystack on strings (substring test). -/
def pyIn (needle haystack : String) : Bool :=
  containsL needle.data haystack.data

/-- A parsed JSON body as the code observes it: a flat object whose fields
hold strings (the documented shapes are a match payload, an error object
with an error field, a nonce object, and an accessToken object). -/
abbrev JsonObj := List (String × String)

/-- The Python subscript data[key] as an Option (and key in data as isSome). -/
def jget (obj : JsonObj) (key : String) : Option String :=
  (obj.find? (fun kv => kv.fst == key)).map Prod.snd

/-- Outcome of response.json() in initiate_match: a parsed object, a JSON
decode failure (json.JSONDecodeError, which is NOT an aiohttp.ClientError
and so is not caught by the except clause of initiate_match), or a
content-type failure (aiohttp.ContentTypeError, a ClientError subclass,
caught by that except clause). -/
inductive BodyParse where
  | parsed (obj : JsonObj)
  | decodeError
  | contentTypeError
deriving DecidableEq

/-- Outcome of the HTTP POST issued by initiate_match: either the request
itself failed (asyncio.TimeoutError or aiohttp.ClientError, both caught by
the except clause), or a reply with a status code and a body. -/
inductive HttpReply where
  | transportFailure
  | got (status : Nat) (body : BodyParse)
deriving DecidableEq

/-- What initiate_match hands back across its own boundary: a normal Python
return value (None or the parsed data), or an exception that escapes it. -/
inductive PyValue where
  | value (v : Option JsonObj)
  | uncaught
deriving DecidableEq

/-- Observable behaviour of one initiate_match call: its returned value (or
escaped exception), the asyncio.sleep durations it awaited in order, and how
many times it invoked refresh_token. -/
structure InitiateOutcome where
  result : PyValue
  sleeps : List Nat
  refreshes : Nat
deriving DecidableEq

/-- GameSession.initiate_match from src/bot.py, lines 61 to 95, as a function
of the reply the network produced for its POST.
The branch structure mirrors the source exactly:
response.json() runs first (a decode failure escapes uncaught, a content-type
failure is caught with the transport failures: sleep 5, implicit return None);
status 200 returns the parsed data with no sleep; otherwise, when the body has
an error field, a Not found marker sleeps 180 and returns None, an
Invalid token or Authentication token required marker awaits refresh_token
and then FALLS THROUGH (the source has no return there) into the generic
error branch, which sleeps 60 and returns None; a body without an error
field also falls into that generic branch. -/
def initiate_match (reply : HttpReply) : InitiateOutcome :=
  match reply with
  | .transportFailure => ⟨.value none, [5], 0⟩
  | .got status body =>
    match body with
    | .decodeError => ⟨.uncaught, [], 0⟩
    | .contentTypeError => ⟨.value none, [5], 0⟩
    | .parsed data =>
      if status == 200 then
        ⟨.value (some data), [], 0⟩
      else
        match jget data "error" with
        | some err =>
          if pyIn "Not found" err then
            ⟨.value none, [180], 0⟩
          else if pyIn "Invalid token" err || pyIn "Authentication token required" err then
            ⟨.value none, [60], 1⟩
          else
            ⟨.value none, [60], 0⟩
        | none => ⟨.value none, [60], 0⟩

/-- The result classification of section 4.4 of the specification, read off
from the branch of initiate_match that the reply selects. -/
inductive MatchResult where
  | success (payload : JsonObj)
  | cooldown
  | authExpired
  | otherError
  | transportError
  | malformedBody
deriving DecidableEq

/-- Which classification branch of initiate_match a reply selects. -/
def classify (reply : HttpReply) : MatchResult :=
  match reply with
  | .transportFailure => .transportError
  | .got status body =>
    match body with
    | .decodeError => .malformedBody
    | .contentTypeError => .transportError
    | .parsed data =>
      if status == 200 then .success data
      else
        match jget data "error" with
        | some err =>
          if pyIn "Not found" err then .cooldown
          else if pyIn "Invalid token" err || pyIn "Authentication token required" err then
            .authExpired
          else .otherError
        | none => .otherError

/-- The fixed roster of agent identifiers from GameSession.agent_ids. -/
def agent_ids : List Nat :=
  [26641, 26733, 26854, 39534, 39294, 39437,
   79691, 79722, 79797, 79661, 79753, 79829,
   85172, 85203, 85248, 85128, 85153]

/-- What asyncio.gather with return_exceptions set to True records for one
task: the settled return value, or the captured exception as data. -/
inductive TaskOutcome where
  | settled (v : Option JsonObj)
  | captured
deriving DecidableEq

/-- How gather with return_exceptions True converts one task outcome. -/
def gatherResult (o : InitiateOutcome) : TaskOutcome :=
  match o.result with
  | .value v => .settled v
  | .uncaught => .captured

/-- One cycle of GameSession.run: one initiate_match task per agent of the
roster, all awaited together; the environment assigns each agent the reply
its POST produced in this cycle. -/
def run_cycle (env : Nat → HttpReply) : List TaskOutcome :=
  agent_ids.map (fun a => gatherResult (initiate_match (env a)))

/-- Total number of refresh_token invocations the tasks of one cycle make. -/
def cycle_refresh_count (env : Nat → HttpReply) : Nat :=
  (agent_ids.map (fun a => (initiate_match (env a)).refreshes)).sum

/-- The trace of one loop iteration of GameSession.run: the roster it fans
out over, the gathered per-task outcomes, and the inter-cycle sleep that
follows the batch. -/
structure CycleTrace where
  roster : List Nat
  results : List TaskOutcome
  interCycleSleep : Nat
deriving DecidableEq

/-- GameSession.run from src/bot.py, lines 97 to 120, unrolled for a given
number of iterations: each iteration fans out the full roster, awaits the
gather (whose return_exceptions flag turns task exceptions into data, so the
batch always settles), and then sleeps 10 seconds before the next iteration
begins. The environment gives, per cycle and per agent, the reply of that
agent's POST. -/
def run (env : Nat → Nat → HttpReply) (cycles : Nat) : List CycleTrace :=
  (List.range cycles).map (fun c => ⟨agent_ids, run_cycle (env c), 10⟩)

/-- The mutable part of a GameSession: its token and its headers dict. -/
structure SessionState where
  token : String
  headers : JsonObj
deriving DecidableEq

/-- GameSession._generate_headers from src/bot.py, lines 37 to 46. -/
def generate_headers (token : String) : JsonObj :=
  [("Accept", "application/json"),
   ("Authorization", "Bearer " ++ token),
   ("Content-Type", "application/json"),
   ("Origin", "https://dapp.fractionai.xyz"),
   ("Referer", "https://dapp.fractionai.xyz/"),
   ("User-Agent", "Mozilla/5.0 (Windows NT 10.0; Win64; x64) AppleWebKit/537.36")]

/-- GameSession.__init__: the session state after construction with a token
(user id and the other fields are immutable and irrelevant here). -/
def initSession (token : String) : SessionState :=
  ⟨token, generate_headers token⟩

/-- The world refresh_token touches: the session state plus the contents of
the durable file access_token.txt (none when the file does not exist). -/
structure World where
  session : SessionState
  tokenFile : Option String
deriving DecidableEq

/-- Observable behaviour of one refresh_token call: the world after it, the
value it returns to its caller (the Python function is annotated -> None and
has no return statement, so the caller receives None in every branch,
modelled as Unit), and whether it logged the success message (rather than
the failure message). -/
structure RefreshOutcome where
  world : World
  returned : Unit
  loggedSuccess : Bool
deriving DecidableEq

/-- GameSession.refresh_token from src/bot.py, lines 48 to 59, as a function
of the result of FractionAIAuth.verify_dapp_auth (some token on success,
none on failure, since verify_dapp_auth catches its own network errors and
returns None): on a truthy new token it assigns self.token, regenerates
self.headers from the new token, and overwrites access_token.txt; on None it
only logs the failure, leaving session and file untouched. -/
def refresh_token (w : World) (authResult : Option String) : RefreshOutcome :=
  match authResult with
  | some newToken =>
    ⟨⟨⟨newToken, generate_headers newToken⟩, some newToken⟩, (), true⟩
  | none => ⟨w, (), false⟩

/-- The character set that Python str.strip() with no argument removes:
exactly the characters for which str.isspace() is true, which is all Unicode
whitespace (code points of category Zs or of bidirectional class WS, B or S):
0x09 to 0x0d, 0x1c to 0x1f, the space 0x20, 0x85, 0xa0, 0x1680, 0x2000 to
0x200a, 0x2028, 0x2029, 0x202f, 0x205f and 0x3000. -/
def isPyWhitespaceChar (c : Char) : Bool :=
  (0x09 ≤ c.toNat && c.toNat ≤ 0x0d) ||
  (0x1c ≤ c.toNat && c.toNat ≤ 0x1f) ||
  c.toNat == 0x20 ||
  c.toNat == 0x85 ||
  c.toNat == 0xa0 ||
  c.toNat == 0x1680 ||
  (0x2000 ≤ c.toNat && c.toNat ≤ 0x200a) ||
  c.toNat == 0x2028 ||
  c.toNat == 0x2029 ||
  c.toNat == 0x202f ||
  c.toNat == 0x205f ||
  c.toNat == 0x3000

/-- Python str.strip with no argument: drop leading and trailing whitespace. -/
def pyStrip (s : String) : String :=
  String.mk (((s.data.dropWhile isPyWhitespaceChar).reverse.dropWhile
    isPyWhitespaceChar).reverse)

/-- The token-loading branch of main in src/bot.py, lines 131 to 133: read
access_token.txt and strip it; a missing file gives none (the
FileNotFoundError branch authenticates afresh instead of loading). -/
def load_token (file : Option String) : Option String :=
  file.map pyStrip

/-- A successful refresh followed by a restart and the load of main: what
main reads back from the file the refresh wrote. -/
def refresh_then_restart_load (w : World) (newToken : String) : Option String :=
  load_token (refresh_token w (some newToken)).world.tokenFile

/-- One network attempt inside FractionAIAuth.fetch_nonce: either a
requests.exceptions.RequestException was raised (transport failure, timeout,
a non-2xx status via raise_for_status, or a body that fails JSON parsing,
since the JSON decode error of the requests library subclasses
RequestException), or the attempt succeeded with a parsed JSON body. -/
inductive NonceAttempt where
  | requestException
  | okJson (body : JsonObj)
deriving DecidableEq

/-- Observable behaviour of fetch_nonce: its return value, the number of
network calls it made, and the sleeps it performed (the retry loop has no
backoff, so this list is always empty). -/
structure NonceOutcome where
  result : Option String
  calls : Nat
  sleeps : List Nat
deriving DecidableEq

/-- The max_retries constant of fetch_nonce. -/
def max_retries : Nat := 3

/-- The retry loop of FractionAIAuth.fetch_nonce from src/access_token.py,
lines 31 to 47: for attempt in range(max_retries), a successful attempt
returns the nonce field of the body at once (None when the field is absent),
a RequestException on the last attempt returns None, and an earlier
RequestException continues immediately with the next attempt. The fuel
argument counts the loop iterations still available. -/
def fetchNonceGo (env : Nat → NonceAttempt) (attempt : Nat) : Nat → NonceOutcome
  | 0 => ⟨none, attempt, []⟩
  | fuel + 1 =>
    match env attempt with
    | .okJson body => ⟨jget body "nonce", attempt + 1, []⟩
    | .requestException =>
      if attempt == max_retries - 1 then ⟨none, attempt + 1, []⟩
      else fetchNonceGo env (attempt + 1) fuel

/-- FractionAIAuth.fetch_nonce, as a function of the outcome the network
produces for each attempt index. -/
def fetch_nonce (env : Nat → NonceAttempt) : NonceOutcome :=
  fetchNonceGo env 0 max_retries

/-- The header invariant: the Authorization header of a session is the
Bearer form of its current token. -/
def header_inv (s : SessionState) : Prop :=
  jget s.headers "Authorization" = some ("Bearer " ++ s.token)

example : pyIn "Not found" "Error: Not found here" = true := by decide
example : pyIn "Invalid token" "token Invalid" = false := by decide
example : initiate_match (.got 200 (.parsed [("m", "1")])) =
    ⟨.value (some [("m", "1")]), [], 0⟩ := rfl
example : initiate_match (.got 401 (.parsed [("error", "Invalid token")])) =
    ⟨.value none, [60], 1⟩ := rfl
example : fetch_nonce (fun _ => .requestException) = ⟨none, 3, []⟩ := rfl
example : fetch_nonce (fun _ => .okJson [("nonce", "abc123")]) =
    ⟨some "abc123", 1, []⟩ := rfl
example : pyStrip " tok\n" = "tok" := by decide
example : pyStrip "tok\u00A0" = "tok" := by decide
example : pyStrip "tok\u001C" = "tok" := by decide
example : pyStrip "\u2003tok\u3000" = "tok" := by decide
example : isPyWhitespaceChar 'a' = false := by decide

/-! Helper lemmas about the branches of initiate_match. -/

theorem initiate_parsed_200 (data : JsonObj) :
    initiate_match (.got 200 (.parsed data)) = ⟨.value (some data), [], 0⟩ := rfl

theorem initiate_parsed_not200_result (status : Nat) (data : JsonObj)
    (hs : (status == 200) = false) :
    (initiate_match (.got status (.parsed data))).result = .value none := by
  dsimp only [initiate_match]
  rw [if_neg (by simp [hs])]
  cases he : jget data "error" with
  | none => rfl
  | some err =>
    by_cases hnf : pyIn "Not found" err
    · simp [hnf]
    · by_cases hit : (pyIn "Invalid token" err || pyIn "Authentication token required" err)
      · simp [hnf, hit]
      · simp [hnf, hit]

/-! Claim C1. -/

/-- A cycle in which exactly two agents of the roster, 26641 and 26733, get
an invalid-token error reply and every other agent gets a 200 reply. -/
def c1_env : Nat → HttpReply := fun a =>
  if a == 26641 || a == 26733 then .got 401 (.parsed [("error", "Invalid token")])
  else .got 200 (.parsed [])

/-- Claim C1: evaluation at the failing input. Two agents whose replies carry
the invalid-token marker in the same cycle trigger two refresh_token calls,
not exactly one: each task that classifies its reply as auth-expired awaits
its own refresh_token, and nothing in the source deduplicates them. -/
theorem c1_two_agents_two_refreshes :
    cycle_refresh_count c1_env = 2 ∧
    classify (c1_env 26641) = .authExpired ∧
    classify (c1_env 26733) = .authExpired := by
  refine ⟨by rfl, by rfl, by rfl⟩

/-! Claim C2. -/

/-- Claim C2: counterexample. On a structured error carrying the
invalid-token marker, initiate_match does trigger one refresh, but then
falls through into the generic error branch and sleeps 60 seconds before
returning, contradicting the claim that no delay beyond the refresh occurs. -/
theorem c2_counterexample :
    (initiate_match (.got 401 (.parsed [("error", "Invalid token")]))).refreshes = 1 ∧
    (initiate_match (.got 401 (.parsed [("error", "Invalid token")]))).sleeps = [60] :=
  ⟨rfl, rfl⟩

/-- Claim C2, amended: an initiate call whose reply is a structured error
(non-200 status, body with an error field) carrying an invalid-token or
required-token marker and no not-found marker triggers exactly one token
refresh, then falls through the generic error branch, sleeping an additional
60 seconds before returning None. -/
theorem c2_amended (status : Nat) (data : JsonObj) (err : String)
    (hs : status ≠ 200) (he : jget data "error" = some err)
    (hnf : pyIn "Not found" err = false)
    (hit : pyIn "Invalid token" err = true ∨ pyIn "Authentication token required" err = true) :
    initiate_match (.got status (.parsed data)) = ⟨.value none, [60], 1⟩ := by
  have hs2 : (status == 200) = false := by simpa using hs
  have hor : (pyIn "Invalid token" err || pyIn "Authentication token required" err) = true := by
    rcases hit with h | h <;> simp [h]
  dsimp only [initiate_match]
  rw [if_neg (by simp [hs2]), he]
  simp [hnf, hor]

/-- Claim C2, witness for the amended theorem at a concrete reply. -/
theorem c2_amended_witness :
    initiate_match (.got 401 (.parsed [("error", "Invalid token")])) =
      ⟨.value none, [60], 1⟩ :=
  c2_amended 401 [("error", "Invalid token")] "Invalid token"
    (by decide) rfl (by decide) (Or.inl (by decide))

/-! Claim C3. -/

/-- Replies whose body fails JSON decoding, the one case whose exception
escapes initiate_match. -/
def isDecodeErrorReply : HttpReply → Bool
  | .got _ .decodeError => true
  | _ => false

/-- Claim C3: counterexample. A reply whose body fails JSON decoding raises
an exception (json.JSONDecodeError is not an aiohttp.ClientError) that
escapes initiate_match instead of being returned as data. -/
theorem c3_counterexample :
    (initiate_match (.got 200 .decodeError)).result = .uncaught := rfl

/-- Claim C3, amended: every reply except a JSON-decoding failure makes
initiate_match return a plain value (None or the payload) to its caller;
only a body that fails JSON parsing raises past the initiate boundary, and
that exception is then captured as data by the gather of the run loop. -/
theorem c3_amended (reply : HttpReply) (h : isDecodeErrorReply reply = false) :
    ∃ v, (initiate_match reply).result = .value v := by
  cases reply with
  | transportFailure => exact ⟨none, rfl⟩
  | got status body =>
    cases body with
    | decodeError => simp [isDecodeErrorReply] at h
    | contentTypeError => exact ⟨none, rfl⟩
    | parsed data =>
      by_cases h200 : (status == 200) = true
      · have : status = 200 := by simpa using h200
        subst this
        exact ⟨some data, rfl⟩
      · exact ⟨none, initiate_parsed_not200_result status data (by simpa using h200)⟩

/-- Claim C3, witness for the amended theorem at a concrete reply. -/
theorem c3_amended_witness :
    ∃ v, (initiate_match .transportFailure).result = .value v :=
  c3_amended .transportFailure rfl

/-! Claim C4. -/

/-- Claim C4: counterexample. A 201 reply is a 2xx success at the HTTP level,
but initiate_match compares the status against the literal 200, so a 201
reply with a normal payload falls into the generic error branch: it returns
None after a 60-second sleep instead of yielding Success with the payload. -/
theorem c4_counterexample :
    (initiate_match (.got 201 (.parsed [("matchId", "7")]))).result = .value none ∧
    (initiate_match (.got 201 (.parsed [("matchId", "7")]))).sleeps = [60] :=
  ⟨rfl, rfl⟩

/-- Claim C4, amended: the result of initiate_match carries the payload
exactly when the status is the literal 200 (other 2xx statuses fall into the
error branches); the 200 branch performs no sleep and no refresh; and every
reply classified Cooldown, OtherError or TransportError returns the same
value None, so those outcomes are indistinguishable to the caller. -/
theorem c4_amended :
    (∀ reply : HttpReply, ∀ p : JsonObj,
      ((initiate_match reply).result = .value (some p) ↔ reply = .got 200 (.parsed p))) ∧
    (∀ p : JsonObj, initiate_match (.got 200 (.parsed p)) = ⟨.value (some p), [], 0⟩) ∧
    (∀ reply : HttpReply,
      classify reply = .cooldown ∨ classify reply = .otherError ∨
        classify reply = .transportError →
      (initiate_match reply).result = .value none) := by
  refine ⟨?_, fun p => initiate_parsed_200 p, ?_⟩
  · intro reply p
    constructor
    · intro h
      cases reply with
      | transportFailure => simp [initiate_match] at h
      | got status body =>
        cases body with
        | decodeError => simp [initiate_match] at h
        | contentTypeError => simp [initiate_match] at h
        | parsed data =>
          by_cases h200 : (status == 200) = true
          · have hst : status = 200 := by simpa using h200
            subst hst
            rw [initiate_parsed_200] at h
            cases h
            rfl
          · rw [initiate_parsed_not200_result status data (by simpa using h200)] at h
            cases h
    · intro h
      subst h
      rw [initiate_parsed_200]
  · intro reply h
    cases reply with
    | transportFailure => rfl
    | got status body =>
      cases body with
      | decodeError => simp [classify] at h
      | contentTypeError => rfl
      | parsed data =>
        by_cases h200 : (status == 200) = true
        · exfalso
          dsimp only [classify] at h
          rw [if_pos (by simp [h200])] at h
          rcases h with h | h | h <;> cases h
        · exact initiate_parsed_not200_result status data (by simpa using h200)

/-- Claim C4, witness for the amended theorem at concrete replies. -/
theorem c4_amended_witness :
    (initiate_match (.got 200 (.parsed [("m", "1")]))).result = .value (some [("m", "1")]) ∧
    (initiate_match .transportFailure).result = .value none :=
  ⟨(c4_amended.1 (.got 200 (.parsed [("m", "1")])) [("m", "1")]).2 rfl,
   c4_amended.2.2 .transportFailure (Or.inr (Or.inr rfl))⟩

/-! Claim C5. -/

/-- Claim C5: a structured error reply (non-200 status, body with an error
field) whose error carries the not-found marker is classified Cooldown, and
initiate_match sleeps 180 seconds before returning None to the run loop, so
at least 180 seconds of delay precede the return of that task. -/
theorem c5_not_found_cooldown (status : Nat) (data : JsonObj) (err : String)
    (hs : status ≠ 200) (he : jget data "error" = some err)
    (hnf : pyIn "Not found" err = true) :
    classify (.got status (.parsed data)) = .cooldown ∧
    initiate_match (.got status (.parsed data)) = ⟨.value none, [180], 0⟩ ∧
    180 ≤ (initiate_match (.got status (.parsed data))).sleeps.sum := by
  have hs2 : (status == 200) = false := by simpa using hs
  have h1 : classify (.got status (.parsed data)) = .cooldown := by
    dsimp only [classify]
    rw [if_neg (by simp [hs2]), he]
    simp [hnf]
  have h2 : initiate_match (.got status (.parsed data)) = ⟨.value none, [180], 0⟩ := by
    dsimp only [initiate_match]
    rw [if_neg (by simp [hs2]), he]
    simp [hnf]
  exact ⟨h1, h2, by rw [h2]; simp⟩

/-- Claim C5, witness at a concrete not-found error reply. -/
theorem c5_witness :
    classify (.got 404 (.parsed [("error", "Not found")])) = .cooldown ∧
    initiate_match (.got 404 (.parsed [("error", "Not found")])) = ⟨.value none, [180], 0⟩ ∧
    180 ≤ (initiate_match (.got 404 (.parsed [("error", "Not found")]))).sleeps.sum :=
  c5_not_found_cooldown 404 [("error", "Not found")] "Not found"
    (by decide) rfl (by decide)

/-! Claim C6. -/

/-- Full case analysis of the fetch_nonce retry loop over the outcomes of
the first three attempts. -/
theorem fetch_nonce_cases (env : Nat → NonceAttempt) :
    fetch_nonce env =
      match env 0 with
      | .okJson b0 => ⟨jget b0 "nonce", 1, []⟩
      | .requestException =>
        match env 1 with
        | .okJson b1 => ⟨jget b1 "nonce", 2, []⟩
        | .requestException =>
          match env 2 with
          | .okJson b2 => ⟨jget b2 "nonce", 3, []⟩
          | .requestException => ⟨none, 3, []⟩ := by
  cases h0 : env 0 <;> cases h1 : env 1 <;> cases h2 : env 2 <;>
    simp [fetch_nonce, fetchNonceGo, max_retries, h0, h1, h2]

/-- An environment whose first attempt is an HTTP success whose JSON body
has no nonce field. -/
def c6_env : Nat → NonceAttempt := fun _ => .okJson []

/-- Claim C6: counterexample. When the first attempt succeeds at the HTTP
level but its body lacks the nonce field, fetch_nonce returns the failure
value None after a single call: it returns failure without three consecutive
failed attempts, and the successful attempt yields no nonce. -/
theorem c6_counterexample :
    fetch_nonce c6_env = ⟨none, 1, []⟩ ∧ c6_env 0 = .okJson [] := ⟨rfl, rfl⟩

/-- Claim C6, amended: fetch_nonce performs at most 3 network attempts with
no backoff between them; on the first HTTP-successful attempt it immediately
returns the nonce field of that body (None when the field is absent); and it
returns None after 3 consecutive request failures. -/
theorem c6_amended (env : Nat → NonceAttempt) :
    (fetch_nonce env).calls ≤ 3 ∧
    (fetch_nonce env).sleeps = [] ∧
    (env 0 = .requestException → env 1 = .requestException → env 2 = .requestException →
      fetch_nonce env = ⟨none, 3, []⟩) ∧
    (∀ body, env 0 = .okJson body → fetch_nonce env = ⟨jget body "nonce", 1, []⟩) ∧
    (∀ body, env 0 = .requestException → env 1 = .okJson body →
      fetch_nonce env = ⟨jget body "nonce", 2, []⟩) ∧
    (∀ body, env 0 = .requestException → env 1 = .requestException →
      env 2 = .okJson body → fetch_nonce env = ⟨jget body "nonce", 3, []⟩) := by
  have hc := fetch_nonce_cases env
  refine ⟨?_, ?_, ?_, ?_, ?_, ?_⟩
  · rw [hc]
    cases h0 : env 0 <;> cases h1 : env 1 <;> cases h2 : env 2 <;> simp
  · rw [hc]
    cases h0 : env 0 <;> cases h1 : env 1 <;> cases h2 : env 2 <;> simp
  · intro h0 h1 h2
    rw [hc, h0, h1, h2]
  · intro body h0
    rw [hc, h0]
  · intro body h0 h1
    rw [hc, h0, h1]
  · intro body h0 h1 h2
    rw [hc, h0, h1, h2]

/-- An environment where every attempt raises a RequestException. -/
def c6_all_fail_env : Nat → NonceAttempt := fun _ => .requestException

/-- Claim C6, witness for the amended theorem: three consecutive failures
give the failure result after exactly 3 calls and no sleep. -/
theorem c6_amended_witness :
    fetch_nonce c6_all_fail_env = ⟨none, 3, []⟩ :=
  (c6_amended c6_all_fail_env).2.2.1 rfl rfl rfl

/-! Claim C7. -/

/-- A concrete world before a refresh attempt. -/
def c7_world : World := ⟨⟨"oldtok", generate_headers "oldtok"⟩, some "oldtok"⟩

/-- Claim C7: counterexample. On an authentication failure the session and
the durable file are indeed untouched, but no failure report reaches the
caller: refresh_token is annotated -> None and has no return statement, so
the caller receives exactly the same value (None) after a failed refresh as
after a successful one, and cannot distinguish the two. -/
theorem c7_counterexample :
    (refresh_token c7_world none).world = c7_world ∧
    (refresh_token c7_world none).returned =
      (refresh_token c7_world (some "newtok")).returned :=
  ⟨rfl, rfl⟩

/-- Claim C7, amended: when authentication fails, the in-memory token, the
headers and the durable copy are all left unchanged and the failure is
logged; but refresh_token returns None in every branch, so the caller
receives no success or failure indication. -/
theorem c7_amended (w : World) (authResult : Option String)
    (hfail : authResult = none) :
    (refresh_token w authResult).world = w ∧
    (refresh_token w authResult).loggedSuccess = false ∧
    (refresh_token w authResult).returned = () := by
  subst hfail
  exact ⟨rfl, rfl, rfl⟩

/-- Claim C7, witness for the amended theorem at a concrete world. -/
theorem c7_amended_witness :
    (refresh_token c7_world none).world = c7_world ∧
    (refresh_token c7_world none).loggedSuccess = false ∧
    (refresh_token c7_world none).returned = () :=
  c7_amended c7_world none rfl

/-! Claim C8. -/

/-- A concrete world before the refresh of the round-trip scenario. -/
def c8_world : World := ⟨⟨"old", generate_headers "old"⟩, none⟩

/-- Claim C8: counterexample. The load in main strips the file contents, so
a token that itself carries surrounding whitespace does not round-trip: the
refresh writes it verbatim, but the load after restart returns the stripped
text, a different string. -/
theorem c8_counterexample :
    refresh_then_restart_load c8_world "tok\n" = some "tok" ∧
    ("tok" : String) ≠ "tok\n" :=
  ⟨rfl, by decide⟩

/-- Claim C8, amended: a token written by a successful refresh is read back
by the startup load with leading and trailing whitespace stripped; whenever
the token contains no such whitespace, the loaded token equals the written
one. -/
theorem c8_amended (w : World) (t : String) (h : pyStrip t = t) :
    refresh_then_restart_load w t = some t := by
  simp [refresh_then_restart_load, refresh_token, load_token, h]

/-- Claim C8, witness for the amended theorem at a concrete token. -/
theorem c8_amended_witness :
    refresh_then_restart_load c8_world "abc123" = some "abc123" :=
  c8_amended c8_world "abc123" rfl

/-! Claim C9. -/

/-- Claim C9: every unrolling of the run loop has one trace entry per cycle;
the trace of each cycle c fans the full roster out (the same fixed
agent_ids list every cycle), gathers exactly one task outcome per agent
(captured exceptions included, so a failing task never removes another task
from the batch and never aborts the loop), and is followed by the fixed
10-second inter-cycle sleep; and the outcome recorded at position i of a
cycle depends only on the reply of the agent at position i, not on any other
task of the batch. -/
theorem c9_runner (env : Nat → Nat → HttpReply) (n c : Nat) (hc : c < n) :
    (run env n).length = n ∧
    (run env n)[c]? = some ⟨agent_ids, run_cycle (env c), 10⟩ ∧
    (run_cycle (env c)).length = agent_ids.length ∧
    (∀ e1 e2 : Nat → HttpReply, ∀ i : Nat, ∀ hi : i < agent_ids.length,
      e1 (agent_ids.get ⟨i, hi⟩) = e2 (agent_ids.get ⟨i, hi⟩) →
      (run_cycle e1)[i]? = (run_cycle e2)[i]?) := by
  refine ⟨?_, ?_, ?_, ?_⟩
  · simp [run]
  · rw [run, List.getElem?_map, List.getElem?_range hc]
    rfl
  · simp [run_cycle]
  · intro e1 e2 i hi h
    have hg : agent_ids[i]? = some (agent_ids.get ⟨i, hi⟩) := by
      rw [List.getElem?_eq_getElem hi]
      rfl
    rw [run_cycle, run_cycle, List.getElem?_map, List.getElem?_map, hg]
    simp only [Option.map_some']
    rw [h]

/-- An environment where every agent of every cycle gets a 200 reply. -/
def c9_env : Nat → Nat → HttpReply := fun _ _ => .got 200 (.parsed [])

/-- Claim C9, witness at one concrete unrolled cycle. -/
theorem c9_runner_witness :
    (run c9_env 1).length = 1 ∧
    (run c9_env 1)[0]? = some ⟨agent_ids, run_cycle (c9_env 0), 10⟩ :=
  ⟨(c9_runner c9_env 1 0 (by decide)).1, (c9_runner c9_env 1 0 (by decide)).2.1⟩

/-! Claim C10. -/

/-- Claim C10: after construction the Authorization header of the session is
the Bearer form of its token; every refresh_token call preserves that
invariant (a failed refresh changes nothing, a successful one regenerates
the headers from the new token); and a successful refresh updates the token,
the headers and the durable copy together, to the same new token. -/
theorem c10_auth_header_invariant :
    (∀ t : String, header_inv (initSession t)) ∧
    (∀ w : World, ∀ r : Option String,
      header_inv w.session → header_inv (refresh_token w r).world.session) ∧
    (∀ w : World, ∀ t : String,
      (refresh_token w (some t)).world = ⟨⟨t, generate_headers t⟩, some t⟩) := by
  have hbase : ∀ t : String, header_inv (initSession t) := fun t => rfl
  refine ⟨hbase, ?_, fun w t => rfl⟩
  intro w r hw
  cases r with
  | none => exact hw
  | some t => exact hbase t

/-- Claim C10, witness: the invariant holds concretely after a failed
refresh from a freshly constructed session. -/
theorem c10_auth_header_invariant_witness :
    header_inv (refresh_token ⟨initSession "tok0", some "tok0"⟩ none).world.session :=
  c10_auth_header_invariant.2.1 ⟨initSession "tok0", some "tok0"⟩ none rfl
